import Mathlib

/-!
Verification of the SimulatorML data-quality (DQ) engine.

Shallow embedding of `src/Junior/metrics.py` and `src/Junior/report.py`.

Modelling conventions:
* A table cell is a rational number, a string, a parsed date, or a null.
  The single `Cell.null` constructor stands for pandas `NaN`/`None`/`NaT`
  and for Spark SQL `NULL` (the code treats `isNull` and `isnan`
  identically via explicit `| isnan` filters).
* Machine floats are modelled by `Rat`; `float` division `k / n` is exact
  rational division guarded by an explicit `ZeroDivisionError`.
* Python exceptions become the `PyErr` sum type; fallible code returns
  `Except PyErr _`.  The textual payloads of exceptions are approximated
  (no claim depends on exact message strings).
* `datetime.datetime.now()` is an ambient effect; it is passed explicitly
  as a `Clock` value (year/month/day).  Time-of-day is not modelled, so
  the day lag `(now - last_day).days` is the difference of day ordinals.
* pandas dataframes and pyspark dataframes are both lists of rows tagged
  with their backend; `Table.other` stands for any value of a different
  runtime type (the `NotImplementedError` branch of `Metric.__call__`).
-/

/-- A scalar held by one table cell. -/
inductive Cell where
  | num (q : Rat)
  | str (s : String)
  | date (y m d : Nat)
  | null
deriving DecidableEq

/-- A scalar accepted as the `value` parameter of `CountValue`
(`Union[str, int, float]` in the source). -/
inductive SVal where
  | num (q : Rat)
  | str (s : String)
deriving DecidableEq

/-- A scalar stored in a metric result dictionary: a number, a
string-formatted date, or Python `None`. -/
inductive RVal where
  | num (q : Rat)
  | str (s : String)
  | none
deriving DecidableEq

/-- One table row: an association list from column name to cell.
Wellformed tables give every row the same column set. -/
abbrev Row : Type := List (String × Cell)

/-- The runtime representation of a table handed to a metric:
a local pandas dataframe, a distributed pyspark dataframe, or any other
runtime type (rejected by `Metric.__call__`). -/
inductive Table where
  | pandasT (rows : List Row)
  | sparkT (rows : List Row)
  | other
deriving DecidableEq

/-- Python exceptions reachable in the embedded fragment.  Message
payloads are approximations; no claim depends on their exact text. -/
inductive PyErr where
  | keyError (k : String)
  | zeroDiv
  | typeError
  | valueError
  | indexError
  | unboundLocal
  | notImplemented (msg : String)
deriving DecidableEq

/-- Models `str(e)` as recorded in the error column of the ledger. -/
def errMsg : PyErr → String
  | .keyError k => k
  | .zeroDiv => "division by zero"
  | .typeError => "TypeError"
  | .valueError => "ValueError"
  | .indexError => "list index out of range"
  | .unboundLocal => "local variable referenced before assignment"
  | .notImplemented m => m

/-- The ambient calendar date of `datetime.datetime.now()`, passed
explicitly (time-of-day is not modelled). -/
structure Clock where
  year : Nat
  month : Nat
  day : Nat
deriving DecidableEq

/-- The metric family of `metrics.py`, one variant per dataclass, each
carrying exactly the fields of its dataclass. -/
inductive Metric where
  | CountTotal
  | CountZeros (column : String)
  | CountNull (columns : List String) (aggregation : String)
  | CountDuplicates (columns : List String)
  | CountValue (column : String) (value : SVal)
  | CountBelowValue (column : String) (value : Rat) ( strict : Bool)
  | CountBelowColumn (column_x column_y : String) ( strict : Bool)
  | CountRatioBelow (column_x column_y column_z : String) ( strict : Bool)
  | CountCB (column : String) (conf : Rat)
  | CountLag (column : String) (fmt : String)
deriving DecidableEq

/-- A metric result: the insertion-ordered key/value pairs of the Python
result dict. -/
abbrev Result : Type := List (String × RVal)

/-- Models `result.get(key, None)`: first binding of `key`, if any. -/
def resGet (res : Result) (key : String) : Option RVal :=
  List.lookup key res

/-! ## Cell and column helpers -/

/-- Whether a cell is null (`NaN`/`None`/SQL `NULL`). -/
def Cell.isNull : Cell → Bool
  | .null => true
  | _ => false

/-- A column is addressable when every row binds it; `df[c]` on a table
lacking the column raises `KeyError` (pandas) or an analysis error
(Spark), both modelled as `PyErr.keyError`. -/
def colPresent (rows : List Row) (c : String) : Bool :=
  rows.all (fun r => (List.lookup c r).isSome)

/-- The cell of row `r` in column `c` (null when absent; only reached
after a `colPresent` check). -/
def getCellD (r : Row) (c : String) : Cell :=
  (List.lookup c r).getD Cell.null

/-- Equality `cell == v` as computed by both backends: pandas `==` never
raises and compares null as unequal to everything; Spark `Column == lit`
yields SQL `NULL` (excluded by `filter`) on null input.  the Spark implicit
cast between string literals and numeric columns is not modelled. -/
def cellEqVal : Cell → SVal → Bool
  | .num a, .num b => a == b
  | .str a, .str b => a == b
  | _, _ => false

/-- Strict comparison `cell < q` against a scalar threshold, false on
null (pandas `NaN < q` is `False`; Spark `NULL < q` is `NULL`, excluded
by `filter`).  String cells yield false here; the pandas strategies raise
`TypeError` separately when a compared column is non-numeric. -/
def cellLtQ : Cell → Rat → Bool
  | .num a, q => a < q
  | _, _ => false

/-- Whether a cell can participate in a numeric comparison without a
pandas `TypeError` (numbers and nulls can; strings and datetimes against
numbers cannot). -/
def cellNumOrNull : Cell → Bool
  | .num _ => true
  | .null => true
  | _ => false

/-- Models `total`, `count` and `delta = count / total` for the strategies
whose `k` and `n` are plain Python ints (every pyspark strategy via
`df.count()`, and the local zero-count via builtin `sum` and
duplicate-count via `len`): there `k / n` raises `ZeroDivisionError` on
an empty table. -/
def mkCounts (n k : Nat) : Except PyErr Result :=
  if n = 0 then .error .zeroDiv
  else .ok [("total", .num n), ("count", .num k), ("delta", .num ((k : Rat) / (n : Rat)))]

/-- Models `total`, `count` and `delta = count / total` for the local
strategies whose `k` comes from `Series.sum()` and is therefore a numpy
scalar (`np.int64`): on an empty table `k / n` is `np.int64(0) / 0`,
which emits a RuntimeWarning and evaluates to `nan` (represented by
`RVal.none`, which fails a numeric limit check exactly as `None` does)
instead of raising. -/
def mkCountsNp (n k : Nat) : Except PyErr Result :=
  if n = 0 then .ok [("total", .num n), ("count", .num k), ("delta", RVal.none)]
  else .ok [("total", .num n), ("count", .num k), ("delta", .num ((k : Rat) / (n : Rat)))]

/-! ## Calendar arithmetic (for `CountLag`)

`strptime`/`strftime` are modelled for the default format `"%Y-%m-%d"`
only; every claim uses that format.  Other format strings make the local
strategy coerce to `NaT` and the distributed strategy raise. -/

/-- Proleptic-Gregorian leap-year test. -/
def isLeap (y : Nat) : Bool :=
  (y % 4 == 0 && y % 100 != 0) || (y % 400 == 0)

/-- Days in a month, used by `strptime` to validate the day field. -/
def daysInMonth (y m : Nat) : Nat :=
  if m = 2 then (if isLeap y then 29 else 28)
  else if m = 4 ∨ m = 6 ∨ m = 9 ∨ m = 11 then 30
  else 31

/-- Day ordinal of a civil date (days since 1970-01-01, the Hinnant
days-from-civil algorithm over truncating integer division). -/
def dateOrd (y m d : Nat) : Int :=
  let y2 : Int := (y : Int) - (if m ≤ 2 then 1 else 0)
  let era : Int := (if 0 ≤ y2 then y2 else y2 - 399) / 400
  let yoe : Int := y2 - era * 400
  let mp : Int := ((m : Int) + 9) % 12
  let doy : Int := (153 * mp + 2) / 5 + (d : Int) - 1
  let doe : Int := yoe * 365 + yoe / 4 - yoe / 100 + doy
  era * 146097 + doe - 719468

/-- Digit-string to number (`none` when empty or non-numeric). -/
def digitsToNat (s : String) : Option Nat :=
  if s.length > 0 && s.data.all Char.isDigit then
    some (s.data.foldl (fun a c => a * 10 + (c.toNat - 48)) 0)
  else
    Option.none

/-- Models `datetime.strptime(s, "%Y-%m-%d")`: split on dashes, read the three
numeric fields, validate month and day ranges. -/
def parseYMD (s : String) : Option (Nat × Nat × Nat) :=
  match s.splitOn "-" with
  | [ys, ms, ds] =>
    match digitsToNat ys, digitsToNat ms, digitsToNat ds with
    | some y, some m, some d =>
      if 1 ≤ m ∧ m ≤ 12 ∧ 1 ≤ d ∧ d ≤ daysInMonth y m then some (y, m, d)
      else Option.none
    | _, _, _ => Option.none
  | _ => Option.none

/-- Zero-pad to two digits. -/
def pad2 (n : Nat) : String :=
  if n < 10 then "0" ++ toString n else toString n

/-- Zero-pad to four digits. -/
def pad4 (n : Nat) : String :=
  if n < 10 then "000" ++ toString n
  else if n < 100 then "00" ++ toString n
  else if n < 1000 then "0" ++ toString n
  else toString n

/-- Models `strftime("%Y-%m-%d")`. -/
def fmtYMD (y m d : Nat) : String :=
  pad4 y ++ "-" ++ pad2 m ++ "-" ++ pad2 d

/-- Models `pd.to_datetime(cell, format=fmt, errors="coerce")` on one cell:
parseable strings become datetimes, datetimes pass through, everything
else coerces to `NaT`. -/
def parseDateCell (fmt : String) : Cell → Cell
  | .str s =>
    if fmt = "%Y-%m-%d" then
      match parseYMD s with
      | some (y, m, d) => .date y m d
      | Option.none => .null
    else .null
  | .date y m d => .date y m d
  | _ => .null

/-- Models `Series.max()` over a parsed date column: latest date, skipping
nulls; `none` when every entry is `NaT`. -/
def maxDateCell (cells : List Cell) : Option (Nat × Nat × Nat) :=
  cells.foldl
    (fun acc c =>
      match c with
      | .date y m d =>
        match acc with
        | Option.none => some (y, m, d)
        | some (y2, m2, d2) =>
          if dateOrd y2 m2 d2 < dateOrd y m d then some (y, m, d) else acc
      | _ => acc)
    Option.none

/-! ## Metric strategies

One definition per `_call_pandas` / `_call_pyspark` method.  The local
(pandas) comparison strategies raise `TypeError` when a compared column
is not numeric-or-null (vectorised comparison of non-numeric columns is
modelled as a type error; every claim exercises numeric columns), while
the distributed (Spark) strategies treat failed casts as SQL `NULL`. -/

/-- Models `CountTotal._call_pandas`: `{"total": len(df)}`. -/
def pandasCountTotal (rows : List Row) : Except PyErr Result :=
  .ok [("total", .num rows.length)]

/-- Models `CountTotal._call_pyspark`: `{"total": df.count()}`. -/
def sparkCountTotal (rows : List Row) : Except PyErr Result :=
  .ok [("total", .num rows.length)]

/-- Models `CountZeros._call_pandas`: `k = sum(df[column] == 0)`. -/
def pandasCountZeros (c : String) (rows : List Row) : Except PyErr Result :=
  if colPresent rows c then
    mkCounts rows.length (rows.countP (fun r => cellEqVal (getCellD r c) (.num 0)))
  else .error (.keyError c)

/-- Models `CountZeros._call_pyspark`: `k = df.filter(col(column) == 0).count()`. -/
def sparkCountZeros (c : String) (rows : List Row) : Except PyErr Result :=
  if colPresent rows c then
    mkCounts rows.length (rows.countP (fun r => cellEqVal (getCellD r c) (.num 0)))
  else .error (.keyError c)

/-- First column of `cols` missing from the table (payload of the
`KeyError`). -/
def firstMissing (rows : List Row) (cols : List String) : String :=
  (cols.find? (fun c => !colPresent rows c)).getD ""

/-- Models `CountNull._call_pandas`: rows where any/all of the listed columns
are null; `k` is a `Series.sum()` numpy scalar, so an empty table yields
a `nan` delta instead of raising; an aggregation mode other than
`"any"`/`"all"` leaves `k` unassigned, raising `UnboundLocalError` at
the `return`. -/
def pandasCountNull (cols : List String) (agg : String) (rows : List Row) :
    Except PyErr Result :=
  if agg = "any" then
    if cols.all (colPresent rows) then
      mkCountsNp rows.length (rows.countP (fun r => cols.any (fun c => (getCellD r c).isNull)))
    else .error (.keyError (firstMissing rows cols))
  else if agg = "all" then
    if cols.all (colPresent rows) then
      mkCountsNp rows.length (rows.countP (fun r => cols.all (fun c => (getCellD r c).isNull)))
    else .error (.keyError (firstMissing rows cols))
  else .error .unboundLocal

/-- Models `when(col(c).isNull() | isnan(c), True)` applied to one row: SQL
`TRUE` when the cell is null, SQL `NULL` otherwise. -/
def whenNull (r : Row) (c : String) : Option Bool :=
  if (getCellD r c).isNull then some true else Option.none

/-- Spark three-valued `|` restricted to the `{TRUE, NULL}` values
produced by `whenNull`. -/
def orWhen : Option Bool → Option Bool → Option Bool
  | some true, _ => some true
  | _, some true => some true
  | _, _ => Option.none

/-- Spark three-valued `&` restricted to `{TRUE, NULL}`. -/
def andWhen : Option Bool → Option Bool → Option Bool
  | some true, some true => some true
  | _, _ => Option.none

/-- The `condition` column built by `CountNull._call_pyspark` for
`aggregation == "any"`: an `|`-fold of `when` clauses starting from
`columns[0]`. -/
def sparkNullCondAny (r : Row) (c0 : String) (rest : List String) : Option Bool :=
  rest.foldl (fun acc c => orWhen acc (whenNull r c)) (whenNull r c0)

/-- The `condition` column for `aggregation == "all"`: an `&`-fold. -/
def sparkNullCondAll (r : Row) (c0 : String) (rest : List String) : Option Bool :=
  rest.foldl (fun acc c => andWhen acc (whenNull r c)) (whenNull r c0)

/-- Models `CountNull._call_pyspark`: builds the `when`-chain from
`self.columns[0]` (raising `IndexError` on an empty column list), filters
on the derived condition column (the `withColumn` result is discarded,
the input dataframe is immutable), and counts. -/
def sparkCountNull (cols : List String) (agg : String) (rows : List Row) :
    Except PyErr Result :=
  if agg = "any" then
    match cols with
    | [] => .error .indexError
    | c0 :: rest =>
      if cols.all (colPresent rows) then
        mkCounts rows.length (rows.countP (fun r => sparkNullCondAny r c0 rest == some true))
      else .error (.keyError (firstMissing rows cols))
  else if agg = "all" then
    match cols with
    | [] => .error .indexError
    | c0 :: rest =>
      if cols.all (colPresent rows) then
        mkCounts rows.length (rows.countP (fun r => sparkNullCondAll r c0 rest == some true))
      else .error (.keyError (firstMissing rows cols))
  else .error .unboundLocal

/-- The duplicate key of a row: its tuple of cells in the given columns
(both backends group nulls as equal keys). -/
def rowKey (cols : List String) (r : Row) : List Cell :=
  cols.map (getCellD r)

/-- Models `df.duplicated(subset=cols)` with the default `keep="first"`: each
key occurrence after the first is flagged.  `seen` is the accumulator of
keys already passed. -/
def dupFlags (seen : List (List Cell)) : List (List Cell) → List Bool
  | [] => []
  | k :: rest => (seen.contains k) :: dupFlags (k :: seen) rest

/-- Models `CountDuplicates._call_pandas`: `k = len(df[df.duplicated(subset)])`,
the number of rows flagged by `duplicated`. -/
def pandasCountDuplicates (cols : List String) (rows : List Row) :
    Except PyErr Result :=
  if cols.all (colPresent rows) then
    mkCounts rows.length ((dupFlags [] (rows.map (rowKey cols))).count true)
  else .error (.keyError (firstMissing rows cols))

/-- Models `CountDuplicates._call_pyspark`:
`k = df.groupBy(columns).count().filter(count > 1).count()`, the number
of distinct keys occurring more than once. -/
def sparkCountDuplicates (cols : List String) (rows : List Row) :
    Except PyErr Result :=
  if cols.all (colPresent rows) then
    let keys := rows.map (rowKey cols)
    mkCounts rows.length (keys.dedup.countP (fun g => 1 < keys.count g))
  else .error (.keyError (firstMissing rows cols))

/-- Models `CountValue._call_pandas`: `k = (df[column] == value).sum()`, a
numpy scalar, so an empty table yields a `nan` delta instead of
raising. -/
def pandasCountValue (c : String) (v : SVal) (rows : List Row) :
    Except PyErr Result :=
  if colPresent rows c then
    mkCountsNp rows.length (rows.countP (fun r => cellEqVal (getCellD r c) v))
  else .error (.keyError c)

/-- Models `CountValue._call_pyspark`: `k = df.filter(df[column] == value).count()`. -/
def sparkCountValue (c : String) (v : SVal) (rows : List Row) :
    Except PyErr Result :=
  if colPresent rows c then
    mkCounts rows.length (rows.countP (fun r => cellEqVal (getCellD r c) v))
  else .error (.keyError c)

/-- Models `CountBelowValue._call_pandas`: `k = (df[column] < value).sum()`.
The method never reads `self.strict`, so the comparison is always
strict; accordingly this definition takes no strictness argument.  The
boolean sum `k` is a numpy scalar, so an empty table yields a `nan`
delta instead of raising. -/
def pandasCountBelowValue (c : String) (v : Rat) (rows : List Row) :
    Except PyErr Result :=
  if colPresent rows c then
    if rows.all (fun r => cellNumOrNull (getCellD r c)) then
      mkCountsNp rows.length (rows.countP (fun r => cellLtQ (getCellD r c) v))
    else .error .typeError
  else .error (.keyError c)

/-- Models `CountBelowValue._call_pyspark`:
`k = df.filter(df[column] < value).count()`; `self.strict` is never
read here either. -/
def sparkCountBelowValue (c : String) (v : Rat) (rows : List Row) :
    Except PyErr Result :=
  if colPresent rows c then
    mkCounts rows.length (rows.countP (fun r => cellLtQ (getCellD r c) v))
  else .error (.keyError c)

/-- Elementwise `x < y` between two cells: false whenever either side is
null (pandas `NaN` comparisons are `False`; Spark `NULL` comparisons are
`NULL` and are dropped by `filter`). -/
def cellPairLt : Cell → Cell → Bool
  | .num a, .num b => decide (a < b)
  | _, _ => false

/-- Elementwise `x <= y` between two cells, false on nulls. -/
def cellPairLe : Cell → Cell → Bool
  | .num a, .num b => decide (a ≤ b)
  | _, _ => false

/-- Models `CountBelowColumn._call_pandas`: `n = len(df)` and
`k = (df[x] < df[y]).sum()` (or `<=`); rows with a null on either side
contribute `False` to the sum, and the numpy-scalar `k` makes an empty
table yield a `nan` delta instead of raising. -/
def pandasCountBelowColumn (x y : String) (isStrict : Bool) (rows : List Row) :
    Except PyErr Result :=
  if !(colPresent rows x) then .error (.keyError x)
  else if !(colPresent rows y) then .error (.keyError y)
  else if rows.all (fun r => cellNumOrNull (getCellD r x) && cellNumOrNull (getCellD r y)) then
    mkCountsNp rows.length (rows.countP (fun r =>
      if isStrict then cellPairLt (getCellD r x) (getCellD r y)
      else cellPairLe (getCellD r x) (getCellD r y)))
  else .error .typeError

/-- Models `CountBelowColumn._call_pyspark`: `n = df.count()` is taken before
the null/NaN pre-filter, so nulls are excluded from `k` but not from
`n`; then `k` counts the comparison over the filtered frame. -/
def sparkCountBelowColumn (x y : String) (isStrict : Bool) (rows : List Row) :
    Except PyErr Result :=
  if !(colPresent rows x) then .error (.keyError x)
  else if !(colPresent rows y) then .error (.keyError y)
  else
    let filt := rows.filter (fun r => !(getCellD r x).isNull && !(getCellD r y).isNull)
    mkCounts rows.length (filt.countP (fun r =>
      if isStrict then cellPairLt (getCellD r x) (getCellD r y)
      else cellPairLe (getCellD r x) (getCellD r y)))

/-- IEEE result of the float division `x / y` in pandas: finite
quotient, signed infinity on a zero denominator, `NaN` for `0/0` or any
null operand. -/
inductive ERat where
  | nan
  | ninf
  | fin (q : Rat)
  | pinf
deriving DecidableEq

/-- Pandas float division of two numeric-or-null cells. -/
def pandasDivCell : Cell → Cell → ERat
  | .num a, .num b =>
    if b ≠ 0 then .fin (a / b)
    else if 0 < a then .pinf
    else if a < 0 then .ninf
    else .nan
  | _, _ => .nan

/-- IEEE `<` between a division result and a threshold cell (`NaN` and
`+inf` compare `False` against finite values, `-inf` compares `True`;
null thresholds compare `False`). -/
def eratLtCell : ERat → Cell → Bool
  | .fin q, .num b => decide (q < b)
  | .ninf, .num _ => true
  | _, _ => false

/-- IEEE `<=` between a division result and a threshold cell. -/
def eratLeCell : ERat → Cell → Bool
  | .fin q, .num b => decide (q ≤ b)
  | .ninf, .num _ => true
  | _, _ => false

/-- Models `CountRatioBelow._call_pandas`:
`k = (df[x] / df[y] < df[z]).sum()` (or `<=`), with IEEE semantics for
zero denominators and `NaN` propagation from nulls; the numpy-scalar `k`
makes an empty table yield a `nan` delta instead of raising. -/
def pandasCountRatioBelow (x y z : String) (isStrict : Bool) (rows : List Row) :
    Except PyErr Result :=
  if !(colPresent rows x) then .error (.keyError x)
  else if !(colPresent rows y) then .error (.keyError y)
  else if !(colPresent rows z) then .error (.keyError z)
  else if rows.all (fun r => cellNumOrNull (getCellD r x) && cellNumOrNull (getCellD r y)
      && cellNumOrNull (getCellD r z)) then
    mkCountsNp rows.length (rows.countP (fun r =>
      if isStrict then eratLtCell (pandasDivCell (getCellD r x) (getCellD r y)) (getCellD r z)
      else eratLeCell (pandasDivCell (getCellD r x) (getCellD r y)) (getCellD r z)))
  else .error .typeError

/-- The Spark comparison `x / y < z` (or `<=`) on one filtered row:
division by zero yields SQL `NULL`, which the comparison drops, and any
failed numeric cast likewise drops the row. -/
def sparkRatioPred (isStrict : Bool) : Cell → Cell → Cell → Bool
  | .num a, .num b, .num c =>
    !(b == 0) && (if isStrict then decide (a / b < c) else decide (a / b ≤ c))
  | _, _, _ => false

/-- Models `CountRatioBelow._call_pyspark`: `n = df.count()` before the
null/NaN pre-filter on `x`, `y`, `z`. -/
def sparkCountRatioBelow (x y z : String) (isStrict : Bool) (rows : List Row) :
    Except PyErr Result :=
  if !(colPresent rows x) then .error (.keyError x)
  else if !(colPresent rows y) then .error (.keyError y)
  else if !(colPresent rows z) then .error (.keyError z)
  else
    let filt := rows.filter (fun r =>
      !(getCellD r x).isNull && !(getCellD r y).isNull && !(getCellD r z).isNull)
    mkCounts rows.length (filt.countP (fun r =>
      sparkRatioPred isStrict (getCellD r x) (getCellD r y) (getCellD r z)))

/-! ## Quantile and date-lag strategies -/

/-- Insert into a sorted list of rationals. -/
def insortRat (q : Rat) : List Rat → List Rat
  | [] => [q]
  | a :: rest => if q ≤ a then q :: a :: rest else a :: insortRat q rest

/-- Insertion sort over rationals. -/
def sortRats (l : List Rat) : List Rat :=
  l.foldr insortRat []

/-- The numeric entries of a column (pandas quantile and Spark
`approxQuantile` both skip nulls). -/
def numCells (cells : List Cell) : List Rat :=
  cells.filterMap (fun c => match c with | .num q => some q | _ => Option.none)

/-- Models `Series.quantile(p)` with the default linear interpolation: value at
fractional position `p * (n - 1)` of the sorted data, `none` (pandas
`NaN`) when the series has no numeric entries. -/
def quantileLinear (xs : List Rat) (p : Rat) : Option Rat :=
  let s := sortRats xs
  match s.length with
  | 0 => Option.none
  | Nat.succ n1 =>
    let h : Rat := p * (n1 : Rat)
    let i : Nat := h.floor.toNat
    let g : Rat := h - (i : Rat)
    let lo := s.getD i 0
    let hi := s.getD (min (i + 1) n1) 0
    some (lo + g * (hi - lo))

/-- Models `CountCB._call_pandas`: two-sided quantiles at `(1-conf)/2` and
`1-(1-conf)/2`.  An all-null column yields `NaN` bounds, represented by
`RVal.none` (both fail a numeric limit check exactly as `None` does). -/
def pandasCountCB (c : String) (conf : Rat) (rows : List Row) :
    Except PyErr Result :=
  if !(colPresent rows c) then .error (.keyError c)
  else if !(rows.all (fun r => cellNumOrNull (getCellD r c))) then .error .typeError
  else
    let xs := numCells (rows.map (fun r => getCellD r c))
    let p1 := (1 - conf) / 2
    match quantileLinear xs p1, quantileLinear xs (1 - p1) with
    | some a, some b => .ok [("lcb", .num a), ("ucb", .num b)]
    | _, _ => .ok [("lcb", RVal.none), ("ucb", RVal.none)]

/-- Models `df.approxQuantile(c, [p], relativeError=0.0)`: the smallest data
element whose rank fraction reaches `p` (no interpolation); `none` when
the column has no numeric entries (then the `[0]` subscript in the
source raises `IndexError`). -/
def sparkQuantileExact (xs : List Rat) (p : Rat) : Option Rat :=
  let s := sortRats xs
  match s.length with
  | 0 => Option.none
  | Nat.succ n1 =>
    let rank : Int := (p * ((n1 + 1 : Nat) : Rat)).ceil - 1
    let i : Nat := min (max rank 0).toNat n1
    some (s.getD i 0)

/-- Models `CountCB._call_pyspark`: `approxQuantile` at the two bounds; an
empty/all-null column raises `IndexError` at the `[0]` subscript. -/
def sparkCountCB (c : String) (conf : Rat) (rows : List Row) :
    Except PyErr Result :=
  if !(colPresent rows c) then .error (.keyError c)
  else
    let xs := numCells (rows.map (fun r => getCellD r c))
    let p1 := (1 - conf) / 2
    match sparkQuantileExact xs p1, sparkQuantileExact xs (1 - p1) with
    | some a, some b => .ok [("lcb", .num a), ("ucb", .num b)]
    | _, _ => .error .indexError

/-- Models `CountLag._call_pandas`.  The first statement
`df[column] = pd.to_datetime(df[column], format=fmt, errors="coerce")`
overwrites the column in place, so the (possibly) mutated row list is
returned alongside the result.  When every entry coerces to `NaT`, the
`b.strftime(...)` call in the result dict raises (modelled as
`ValueError`) — with the column already overwritten. -/
def pandasCountLag (c fmt : String) (now : Clock) (rows : List Row) :
    Except PyErr Result × List Row :=
  if !(colPresent rows c) then (.error (.keyError c), rows)
  else
    let rows2 := rows.map (fun r =>
      r.map (fun p => if p.1 = c then (p.1, parseDateCell fmt p.2) else p))
    match maxDateCell (rows2.map (fun r => getCellD r c)) with
    | Option.none => (.error .valueError, rows2)
    | some (y, m, d) =>
      (.ok [("today", .str (fmtYMD now.year now.month now.day)),
            ("last_day", .str (fmtYMD y m d)),
            ("lag", .num ((dateOrd now.year now.month now.day - dateOrd y m d : Int) : Rat))],
       rows2)

/-- Lexicographic maximum of a list of strings (Spark `max` over a
string column). -/
def maxStr (l : List String) : Option String :=
  l.foldl
    (fun acc s =>
      match acc with
      | Option.none => some s
      | some t => if t < s then some s else acc)
    Option.none

/-- Models `CountLag._call_pyspark`: collect `max(column)` (nulls skipped; an
empty result gives `None`, making the unconditional
`datetime.strptime(b, fmt)` raise `TypeError`; a non-string maximum also
raises `TypeError`; an unparseable string raises `ValueError`).  The
input dataframe is immutable and returned untouched by the caller. -/
def sparkCountLag (c fmt : String) (now : Clock) (rows : List Row) :
    Except PyErr Result :=
  if !(colPresent rows c) then .error (.keyError c)
  else
    let nonNull := (rows.map (fun r => getCellD r c)).filter (fun x => !x.isNull)
    if nonNull.isEmpty then .error .typeError
    else if !(nonNull.all (fun x => match x with | .str _ => true | _ => false)) then
      .error .typeError
    else
      let strs := nonNull.filterMap (fun x => match x with | .str s => some s | _ => Option.none)
      match maxStr strs with
      | Option.none => .error .typeError
      | some b =>
        if fmt = "%Y-%m-%d" then
          match parseYMD b with
          | Option.none => .error .valueError
          | some (y, m, d) =>
            .ok [("today", .str (fmtYMD now.year now.month now.day)),
                 ("last_day", .str (fmtYMD y m d)),
                 ("lag", .num ((dateOrd now.year now.month now.day - dateOrd y m d : Int) : Rat))]
        else .error .valueError

/-! ## Metric dispatch -/

/-- Models `Metric._call_pandas` dispatch: the local strategy of each metric.
Every strategy except `CountLag` leaves the row list unchanged.
`CountBelowValue` drops its `strict` field here because its methods
never read `self.strict`. -/
def evalPandas (now : Clock) (m : Metric) (rows : List Row) :
    Except PyErr Result × List Row :=
  match m with
  | .CountTotal => (pandasCountTotal rows, rows)
  | .CountZeros c => (pandasCountZeros c rows, rows)
  | .CountNull cols agg => (pandasCountNull cols agg rows, rows)
  | .CountDuplicates cols => (pandasCountDuplicates cols rows, rows)
  | .CountValue c v => (pandasCountValue c v rows, rows)
  | .CountBelowValue c v _ => (pandasCountBelowValue c v rows, rows)
  | .CountBelowColumn x y b => (pandasCountBelowColumn x y b rows, rows)
  | .CountRatioBelow x y z b => (pandasCountRatioBelow x y z b rows, rows)
  | .CountCB c conf => (pandasCountCB c conf rows, rows)
  | .CountLag c fmt => pandasCountLag c fmt now rows

/-- Models `Metric._call_pyspark` dispatch: the distributed strategy of each
metric.  Spark dataframes are immutable, so no row list is returned. -/
def evalSpark (now : Clock) (m : Metric) (rows : List Row) : Except PyErr Result :=
  match m with
  | .CountTotal => sparkCountTotal rows
  | .CountZeros c => sparkCountZeros c rows
  | .CountNull cols agg => sparkCountNull cols agg rows
  | .CountDuplicates cols => sparkCountDuplicates cols rows
  | .CountValue c v => sparkCountValue c v rows
  | .CountBelowValue c v _ => sparkCountBelowValue c v rows
  | .CountBelowColumn x y b => sparkCountBelowColumn x y b rows
  | .CountRatioBelow x y z b => sparkCountRatioBelow x y z b rows
  | .CountCB c conf => sparkCountCB c conf rows
  | .CountLag c fmt => sparkCountLag c fmt now rows

/-- Models `Metric.__call__`: inspect the runtime representation of the table,
route to the matching strategy, and raise `NotImplementedError` on any
other representation.  Returns the (for `CountLag._call_pandas` possibly
mutated) table alongside the outcome. -/
def evalMetric (now : Clock) (m : Metric) (t : Table) : Except PyErr Result × Table :=
  match t with
  | .pandasT rows =>
    let out := evalPandas now m rows
    (out.1, .pandasT out.2)
  | .sparkT rows => (evalSpark now m rows, .sparkT rows)
  | .other =>
    (.error (.notImplemented
      "Not supported type of arg df. Supported types: pandas.DataFrame, pyspark.sql.dataframe.DataFrame"),
     .other)

/-! ## Report layer (`report.py`)

`LimitType = Dict[str, Tuple[float, float]]` becomes an
insertion-ordered association list (Python dicts preserve insertion
order, which fixes the short-circuit order of the limit check). -/

/-- A limit specification: result key to inclusive `(lower, upper)`. -/
abbrev LimitType : Type := List (String × Rat × Rat)

/-- One checklist entry `(table_name, metric, limits)`. -/
abbrev CheckType : Type := String × Metric × LimitType

/-- Models `repr` of a float/int parameter.  String renderings only feed the
descriptive ledger columns; no claim depends on their exact form. -/
def ratRepr (q : Rat) : String :=
  if q.den = 1 then toString q.num else toString q.num ++ "/" ++ toString q.den

/-- Python `repr` of a string (single-quoted). -/
def quoteStr (s : String) : String :=
  "\x27" ++ s ++ "\x27"

/-- Models `repr` of a list of strings. -/
def strListRepr (l : List String) : String :=
  "[" ++ String.intercalate ", " (l.map quoteStr) ++ "]"

/-- Models `repr` of a `Union[str, int, float]` parameter. -/
def svalRepr : SVal → String
  | .num q => ratRepr q
  | .str s => quoteStr s

/-- Python `repr` of a bool. -/
def boolRepr (b : Bool) : String :=
  if b then "True" else "False"

/-- Models `str(metric)`: the dataclass repr recorded in the ledger. -/
def metricRepr : Metric → String
  | .CountTotal => "CountTotal()"
  | .CountZeros c => "CountZeros(column=" ++ quoteStr c ++ ")"
  | .CountNull cols agg =>
    "CountNull(columns=" ++ strListRepr cols ++ ", aggregation=" ++ quoteStr agg ++ ")"
  | .CountDuplicates cols => "CountDuplicates(columns=" ++ strListRepr cols ++ ")"
  | .CountValue c v => "CountValue(column=" ++ quoteStr c ++ ", value=" ++ svalRepr v ++ ")"
  | .CountBelowValue c v b =>
    "CountBelowValue(column=" ++ quoteStr c ++ ", value=" ++ ratRepr v
      ++ ", strict=" ++ boolRepr b ++ ")"
  | .CountBelowColumn x y b =>
    "CountBelowColumn(column_x=" ++ quoteStr x ++ ", column_y=" ++ quoteStr y
      ++ ", strict=" ++ boolRepr b ++ ")"
  | .CountRatioBelow x y z b =>
    "CountRatioBelow(column_x=" ++ quoteStr x ++ ", column_y=" ++ quoteStr y
      ++ ", column_z=" ++ quoteStr z ++ ", strict=" ++ boolRepr b ++ ")"
  | .CountCB c conf => "CountCB(column=" ++ quoteStr c ++ ", conf=" ++ ratRepr conf ++ ")"
  | .CountLag c fmt => "CountLag(column=" ++ quoteStr c ++ ", fmt=" ++ quoteStr fmt ++ ")"

/-- Models `str(limits)`: the dict repr recorded in the ledger. -/
def limitsRepr (limits : LimitType) : String :=
  "\x7b" ++ String.intercalate ", "
    (limits.map (fun e =>
      quoteStr e.1 ++ ": (" ++ ratRepr e.2.1 ++ ", " ++ ratRepr e.2.2 ++ ")")) ++ "\x7d"

/-- The limit-classification loop of `fit`: walk the limit entries in
insertion order; an absent key (`result.get` gives `None`) or a `None`
value or a number outside `[lower, upper]` short-circuits to `'F'`; a
string value makes the chained comparison
`lower_limit <= value <= upper_limit` raise `TypeError` (caught by the
enclosing `except`, which records `'E'`). -/
def checkLimits : LimitType → Result → Except PyErr Char
  | [], _ => .ok '.'
  | (key, lo, hi) :: rest, res =>
    match resGet res key with
    | Option.none => .ok 'F'
    | some RVal.none => .ok 'F'
    | some (RVal.str _) => .error .typeError
    | some (RVal.num q) => if lo ≤ q ∧ q ≤ hi then checkLimits rest res else .ok 'F'

/-- One row of the per-check ledger (`table_report`). -/
structure LedgerRow where
  table_name : String
  metric : String
  limits : String
  values : Result
  status : Char
  error : String
deriving DecidableEq

/-- Build a ledger row (the six `append` calls of one loop iteration). -/
def mkRow (name : String) (m : Metric) (limits : LimitType) (vals : Result)
    (status : Char) (err : String) : LedgerRow :=
  ⟨name, metricRepr m, limitsRepr limits, vals, status, err⟩

/-- The fitted report: title, ledger, counters and percentages. -/
structure Report where
  title : String
  result : List LedgerRow
  passed : Nat
  failed : Nat
  errors : Nat
  total : Nat
  passed_pct : Rat
  failed_pct : Rat
  errors_pct : Rat
deriving DecidableEq

/-- The loop-carried state of `fit`: the table registry (pandas tables
are mutable, so `CountLag` mutations persist across entries), the ledger
so far, the four counters, and the Python local `result`, which the
`except` branch reads even when the current iteration never assigned
it (`none` models the unbound state before the first assignment). -/
structure FitState where
  tables : List (String × Table)
  rows : List LedgerRow
  passed : Nat
  failed : Nat
  errors : Nat
  total : Nat
  lastResult : Option Result
deriving DecidableEq

/-- Rebind `name` in the registry after a metric call (in Python the
dataframe object is mutated in place; aliasing between distinct names is
not modelled). -/
def updTables (ts : List (String × Table)) (name : String) (t : Table) :
    List (String × Table) :=
  ts.map (fun p => if p.1 = name then (p.1, t) else p)

/-- One iteration of the `for table_n, metric, limits in self.checklist`
loop of `Report._fit_pandas`.  Any exception from the table lookup, the
metric call, or the limit comparison lands in the `except` branch, which
appends a ledger row whose `values` column is the Python local `result`;
if no iteration has assigned `result` yet, reading it raises
`UnboundLocalError`, which escapes `fit` (the `finally` counter update
runs, but the partially built report is discarded). -/
def fitStepPandas (now : Clock) (st : FitState) :
    CheckType → Except PyErr FitState
  | (name, m, limits) =>
    match List.lookup name st.tables with
    | Option.none =>
      match st.lastResult with
      | Option.none => .error .unboundLocal
      | some r =>
        .ok { st with
          rows := st.rows ++ [mkRow name m limits r 'E' (errMsg (.keyError name))],
          errors := st.errors + 1, total := st.total + 1 }
    | some tbl =>
      let out := evalMetric now m tbl
      let st1 := { st with tables := updTables st.tables name out.2 }
      match out.1 with
      | .error e =>
        match st1.lastResult with
        | Option.none => .error .unboundLocal
        | some r =>
          .ok { st1 with
            rows := st1.rows ++ [mkRow name m limits r 'E' (errMsg e)],
            errors := st1.errors + 1, total := st1.total + 1 }
      | .ok result =>
        match checkLimits limits result with
        | .error e =>
          .ok { st1 with
            rows := st1.rows ++ [mkRow name m limits result 'E' (errMsg e)],
            errors := st1.errors + 1, total := st1.total + 1,
            lastResult := some result }
        | .ok status =>
          .ok { st1 with
            rows := st1.rows ++ [mkRow name m limits result status ""],
            passed := if status = '.' then st1.passed + 1 else st1.passed,
            failed := if status = '.' then st1.failed else st1.failed + 1,
            total := st1.total + 1,
            lastResult := some result }

/-- One iteration of the checklist loop of `Report._fit_pyspark`; the
source duplicates `_fit_pandas` verbatim, so this definition repeats
`fitStepPandas`. -/
def fitStepPyspark (now : Clock) (st : FitState) :
    CheckType → Except PyErr FitState
  | (name, m, limits) =>
    match List.lookup name st.tables with
    | Option.none =>
      match st.lastResult with
      | Option.none => .error .unboundLocal
      | some r =>
        .ok { st with
          rows := st.rows ++ [mkRow name m limits r 'E' (errMsg (.keyError name))],
          errors := st.errors + 1, total := st.total + 1 }
    | some tbl =>
      let out := evalMetric now m tbl
      let st1 := { st with tables := updTables st.tables name out.2 }
      match out.1 with
      | .error e =>
        match st1.lastResult with
        | Option.none => .error .unboundLocal
        | some r =>
          .ok { st1 with
            rows := st1.rows ++ [mkRow name m limits r 'E' (errMsg e)],
            errors := st1.errors + 1, total := st1.total + 1 }
      | .ok result =>
        match checkLimits limits result with
        | .error e =>
          .ok { st1 with
            rows := st1.rows ++ [mkRow name m limits result 'E' (errMsg e)],
            errors := st1.errors + 1, total := st1.total + 1,
            lastResult := some result }
        | .ok status =>
          .ok { st1 with
            rows := st1.rows ++ [mkRow name m limits result status ""],
            passed := if status = '.' then st1.passed + 1 else st1.passed,
            failed := if status = '.' then st1.failed else st1.failed + 1,
            total := st1.total + 1,
            lastResult := some result }

/-- The checklist loop of `_fit_pandas`: strictly sequential, entry
`i+1` only after entry `i` is recorded; a raised `UnboundLocalError`
aborts the remaining entries. -/
def runChecklistPandas (now : Clock) (st : FitState) :
    List CheckType → Except PyErr FitState
  | [] => .ok st
  | e :: rest =>
    match fitStepPandas now st e with
    | .error err => .error err
    | .ok st2 => runChecklistPandas now st2 rest

/-- The checklist loop of `_fit_pyspark`. -/
def runChecklistPyspark (now : Clock) (st : FitState) :
    List CheckType → Except PyErr FitState
  | [] => .ok st
  | e :: rest =>
    match fitStepPyspark now st e with
    | .error err => .error err
    | .ok st2 => runChecklistPyspark now st2 rest

/-- Insert a string into a sorted list. -/
def insortStr (s : String) : List String → List String
  | [] => [s]
  | a :: rest => if s < a then s :: a :: rest else a :: insortStr s rest

/-- Models `sorted(...)` over strings. -/
def sortStrs (l : List String) : List String :=
  l.foldr insortStr []

/-- Models `f"DQ Report for tables {sorted(list(set(tables.keys())))}"`. -/
def titleOf (tables : List (String × Table)) : String :=
  "DQ Report for tables " ++ strListRepr (sortStrs (tables.map Prod.fst).dedup)

/-- Python `round(x, 2)` (round half to even on the scaled value). -/
def roundHalfEven (x : Rat) : Int :=
  let f := x.floor
  let r := x - (f : Rat)
  if r < 1 / 2 then f
  else if (1 : Rat) / 2 < r then f + 1
  else if f % 2 = 0 then f
  else f + 1

/-- Models `round(x, 2)` as used for the three percentage fields. -/
def round2 (x : Rat) : Rat :=
  ((roundHalfEven (x * 100) : Int) : Rat) / 100

/-- The identical aggregation epilogue of `_fit_pandas` and
`_fit_pyspark`: materialise the ledger, then
`suma = passed + failed + errors` and the three percentages — the
division raises `ZeroDivisionError` whenever `suma == 0`, in particular
for an empty checklist. -/
def finalizeReport (tables : List (String × Table)) (st : FitState) :
    Except PyErr Report :=
  let suma := st.passed + st.failed + st.errors
  if suma = 0 then .error .zeroDiv
  else
    .ok { title := titleOf tables
          result := st.rows
          passed := st.passed
          failed := st.failed
          errors := st.errors
          total := st.total
          passed_pct := round2 ((st.passed : Rat) * 100 / (suma : Rat))
          failed_pct := round2 ((st.failed : Rat) * 100 / (suma : Rat))
          errors_pct := round2 ((st.errors : Rat) * 100 / (suma : Rat)) }

/-- Models `Report._fit_pandas`. -/
def fitPandas (now : Clock) (checklist : List CheckType)
    (tables : List (String × Table)) : Except PyErr Report :=
  match runChecklistPandas now ⟨tables, [], 0, 0, 0, 0, Option.none⟩ checklist with
  | .error e => .error e
  | .ok st => finalizeReport tables st

/-- Models `Report._fit_pyspark`. -/
def fitPyspark (now : Clock) (checklist : List CheckType)
    (tables : List (String × Table)) : Except PyErr Report :=
  match runChecklistPyspark now ⟨tables, [], 0, 0, 0, 0, Option.none⟩ checklist with
  | .error e => .error e
  | .ok st => finalizeReport tables st

/-- Models `Report.fit`: route on the engine selector string; anything except
`"pandas"` / `"pyspark"` raises `NotImplementedError`. -/
def fitReport (engine : String) (now : Clock) (checklist : List CheckType)
    (tables : List (String × Table)) : Except PyErr Report :=
  if engine = "pandas" then fitPandas now checklist tables
  else if engine = "pyspark" then fitPyspark now checklist tables
  else .error (.notImplemented "Only pandas and pyspark APIs currently supported!")

/-! ## Shared helper lemmas and fixtures -/

/-- Fixed evaluation date used by the concrete runs below (the claims
under test do not depend on the ambient clock value). -/
def nowC : Clock := ⟨2024, 1, 10⟩

/-- The example table `T = [{x:0,y:1},{x:0,y:2},{x:5,y:1}]` of the spec
scenarios. -/
def exRowXY (x y : Rat) : Row := [("x", Cell.num x), ("y", Cell.num y)]

/-- Spec scenario table `T`. -/
def tblT : List Row := [exRowXY 0 1, exRowXY 0 2, exRowXY 5 1]

/-- A ledger status is one of passed, failed, errored. -/
def statusOK (s : Char) : Prop :=
  s = '.' ∨ s = 'F' ∨ s = 'E'

instance {ε α : Type} [DecidableEq ε] [DecidableEq α] : DecidableEq (Except ε α) := by
  intro a b
  cases a <;> cases b
  case error.error x y =>
    exact if h : x = y then .isTrue (by rw [h]) else .isFalse (by simpa using h)
  case ok.ok x y =>
    exact if h : x = y then .isTrue (by rw [h]) else .isFalse (by simpa using h)
  case error.ok x y => exact .isFalse (by simp)
  case ok.error x y => exact .isFalse (by simp)

/-- A column whose cells are all numbers or nulls (and in particular
present in every row): the fragment on which the two backends share
comparison semantics. -/
def colNumeric (rows : List Row) (c : String) : Bool :=
  rows.all (fun r =>
    match List.lookup c r with
    | some (Cell.num _) => true
    | some Cell.null => true
    | _ => false)

/-- The side conditions under which cross-backend parity is asserted for
a metric: referenced columns numeric-or-null; a non-empty table and a
non-empty column list for null-count; a non-empty table for the other
metrics whose local `k` is a `Series.sum()` numpy scalar (at `n = 0`
the local strategy returns a `nan` delta while the distributed one
raises `ZeroDivisionError`, so parity needs `n > 0` there); a numeric
literal for exact-value-count; no zero denominators for the ratio
metric.  Duplicate-count, confidence-bound and date-lag are excluded
(the first is the counterexample; the other two use genuinely different
algorithms per backend). -/
def refColsOK (m : Metric) (rows : List Row) : Bool :=
  match m with
  | .CountTotal => true
  | .CountZeros c => colNumeric rows c
  | .CountNull cols _ =>
    !rows.isEmpty && (!cols.isEmpty && cols.all (colNumeric rows))
  | .CountDuplicates _ => false
  | .CountValue c v =>
    !rows.isEmpty && (match v with | .num _ => colNumeric rows c | .str _ => false)
  | .CountBelowValue c _ _ => !rows.isEmpty && colNumeric rows c
  | .CountBelowColumn x y _ =>
    !rows.isEmpty && (colNumeric rows x && colNumeric rows y)
  | .CountRatioBelow x y z _ =>
    !rows.isEmpty && (colNumeric rows x && colNumeric rows y && colNumeric rows z
      && rows.all (fun r => !(getCellD r y == Cell.num 0)))
  | .CountCB _ _ => false
  | .CountLag _ _ => false

/-- The one strategy that mutates its input: `CountLag` on a local
(pandas) table. -/
def isLagLocal : Metric → Table → Bool
  | .CountLag _ _, .pandasT _ => true
  | _, _ => false

/-- Every limit entry finds a numeric value within its inclusive range
in the result. -/
def allWithin (limits : LimitType) (res : Result) : Prop :=
  ∀ e ∈ limits, ∃ q, resGet res e.1 = some (RVal.num q) ∧ e.2.1 ≤ q ∧ q ≤ e.2.2

/-- A limit entry that fails without raising: key absent, value `None`,
or numeric value out of range. -/
def entryFails (e : String × Rat × Rat) (res : Result) : Prop :=
  resGet res e.1 = Option.none ∨ resGet res e.1 = some RVal.none ∨
    ∃ q, resGet res e.1 = some (RVal.num q) ∧ ¬(e.2.1 ≤ q ∧ q ≤ e.2.2)

/-- The loop invariant of `fit`: ledger length and counter sum track
`total`, and every recorded status is `.`/`F`/`E`. -/
def InvState (st : FitState) : Prop :=
  st.rows.length = st.total ∧ st.passed + st.failed + st.errors = st.total ∧
    ∀ row ∈ st.rows, statusOK row.status

/-- The `NotImplementedError` raised by `Metric.__call__` for a table
that is neither a pandas nor a pyspark dataframe. -/
def unsupportedErr : PyErr :=
  .notImplemented
    "Not supported type of arg df. Supported types: pandas.DataFrame, pyspark.sql.dataframe.DataFrame"

/-- A fit state mid-checklist: one registry entry of unsupported kind
and a previously assigned `result` local (used to witness containment of
the unsupported-kind error). -/
def c5st : FitState :=
  ⟨[("b", Table.other)], [], 0, 0, 0, 0, some [("total", RVal.num 3)]⟩

/-- The key column of the duplicate-count scenario of the spec. -/
def ksT : List (List Cell) :=
  [[Cell.num 0], [Cell.num 0], [Cell.num 5]]

/-- The single-row, single-string-column table used to exhibit the
`CountLag` in-place mutation. -/
def tblLag : List Row := [[("d", Cell.str "2024-01-02")]]

/-- A one-entry checklist used to witness the report invariants. -/
def c2cl : List CheckType :=
  [("t", Metric.CountZeros "x", [("delta", (1 / 2 : Rat), (1 : Rat))])]

/-- The registry for the invariant witness. -/
def c2reg : List (String × Table) := [("t", Table.pandasT tblT)]

/-- The report produced by fitting `c2cl` over `c2reg` (total function:
the error branch is unreachable and mapped to a dummy report). -/
def c2rep : Report :=
  match fitReport "pandas" nowC c2cl c2reg with
  | .ok rep => rep
  | .error _ => ⟨"", [], 0, 0, 0, 0, 0, 0, 0⟩

/-- A table whose key column holds the same value three times:
`df.duplicated` flags two rows, the Spark `groupBy ... count > 1` path
counts one key. -/
def t3 : List Row := [exRowXY 0 1, exRowXY 0 2, exRowXY 0 3]

/-- A two-row table with a null, used to witness cross-backend parity of
the column-below-column metric. -/
def c1rows : List Row :=
  [[("x", Cell.num 1), ("y", Cell.num 2)], [("x", Cell.null), ("y", Cell.num 3)]]

/-- The two checklist loops are the same code; their step functions are
definitionally equal, hence so are the loops. -/
theorem runChecklist_eq (now : Clock) :
    ∀ (cl : List CheckType) (st : FitState),
      runChecklistPandas now st cl = runChecklistPyspark now st cl
  | [], _ => rfl
  | e :: rest, st => by
    have hstep : fitStepPandas now st e = fitStepPyspark now st e := rfl
    simp only [runChecklistPandas, runChecklistPyspark, ← hstep]
    cases fitStepPandas now st e with
    | error err => rfl
    | ok st2 => exact runChecklist_eq now rest st2

/-- C10: The two engine paths of `Report.fit` are equivalent: for every
checklist and every table registry, `fit` with engine `"pandas"` and
`fit` with engine `"pyspark"` execute the same evaluation algorithm and
produce equal reports (same title, ledger rows, counters and
percentages); the engine selector only chooses between two identical
loops, and per-metric backend dispatch is driven by the runtime
representation. -/
theorem C10_engine_paths_equivalent (now : Clock) (checklist : List CheckType)
    (tables : List (String × Table)) :
    fitReport "pandas" now checklist tables = fitReport "pyspark" now checklist tables := by
  show fitPandas now checklist tables = fitPyspark now checklist tables
  unfold fitPandas fitPyspark
  rw [runChecklist_eq]

/-- C9: Calling `Report.fit` with an empty checklist fails with the
division-by-zero error raised by the percentage computation
(`suma == 0`), for every table registry, on both engine paths. -/
theorem C9_empty_checklist_zero_division (now : Clock) (tables : List (String × Table)) :
    fitReport "pandas" now ([] : List CheckType) tables = .error .zeroDiv ∧
    fitReport "pyspark" now ([] : List CheckType) tables = .error .zeroDiv :=
  ⟨rfl, rfl⟩

/-- C7 (code bug): `CountBelowValue` declares a `strict` field, but
`_call_pandas` and `_call_pyspark` never read `self.strict` and always
compare strictly with `<`.  At the failing input — column value `5`,
threshold `5`, `strict=False` — the claim expects `count = 1` (`5 <= 5`)
but the code returns `count = 0`; moreover evaluation is independent of
the `strict` field on every table and both backends. -/
theorem C7_strict_flag_ignored :
    (evalMetric nowC (.CountBelowValue "x" 5 false) (.pandasT [[("x", Cell.num 5)]])).1
      = .ok [("total", .num 1), ("count", .num 0), ("delta", .num 0)] ∧
    (evalMetric nowC (.CountBelowValue "x" 5 false) (.sparkT [[("x", Cell.num 5)]])).1
      = .ok [("total", .num 1), ("count", .num 0), ("delta", .num 0)] ∧
    ∀ (now : Clock) (c : String) (v : Rat) (b1 b2 : Bool) (t : Table),
      evalMetric now (.CountBelowValue c v b1) t = evalMetric now (.CountBelowValue c v b2) t := by
  refine ⟨by with_unfolding_all rfl, by with_unfolding_all rfl, ?_⟩
  intro now c v b1 b2 t
  cases t <;> rfl

/-- C4 (code bug): a failure on the first checklist entry is NOT
contained.  The `except` branch appends the Python local `result`, which
no iteration has assigned yet, so the lookup failure for table
`"missing"` turns into an `UnboundLocalError` that escapes `fit` instead
of producing an `'E'` ledger row. -/
theorem C4_first_entry_failure_escapes :
    fitReport "pandas" nowC [("missing", .CountTotal, [])] [] = .error .unboundLocal := by
  with_unfolding_all rfl

/-- C8 counterexample: the local strategy of the date-lag metric does mutate
the input table.  Evaluating `CountLag("d")` on the pandas table
`[{d: "2024-01-02"}]` succeeds, yet afterwards the column holds the
parsed datetime instead of the original string, contradicting the claim
that table contents after a metric call equal the contents before. -/
theorem C8_no_mutation_counterexample :
    (evalMetric nowC (.CountLag "d" "%Y-%m-%d") (.pandasT tblLag)).1
        = .ok [("today", .str "2024-01-10"), ("last_day", .str "2024-01-02"),
               ("lag", .num 8)] ∧
    (evalMetric nowC (.CountLag "d" "%Y-%m-%d") (.pandasT tblLag)).2
        = .pandasT [[("d", Cell.date 2024 1 2)]] ∧
    .pandasT [[("d", Cell.date 2024 1 2)]] ≠ Table.pandasT tblLag := by
  refine ⟨by with_unfolding_all rfl, by with_unfolding_all rfl, ?_⟩
  intro h
  rw [tblLag] at h
  exact absurd h (by decide)

/-- C8 amended: no metric evaluation mutates its table except the
local (pandas) strategy of the date-lag metric, which overwrites the target
column in place with the parsed dates (shown by the counterexample): for
every metric, clock and table, if the evaluation is not `CountLag` on a
pandas table then the table returned by `Metric.__call__` equals the
input table. -/
theorem C8_no_mutation_amended (now : Clock) (m : Metric) (t : Table)
    (h : isLagLocal m t = false) :
    (evalMetric now m t).2 = t := by
  cases t with
  | pandasT rows => cases m <;> first | rfl | simp [isLagLocal] at h
  | sparkT rows => rfl
  | other => rfl

/-- C8 witness: a concrete non-mutating evaluation obtained from the
amended theorem. -/
theorem C8_no_mutation_witness :
    isLagLocal .CountTotal (.pandasT tblT) = false ∧
    (evalMetric nowC .CountTotal (.pandasT tblT)).2 = .pandasT tblT :=
  ⟨rfl, C8_no_mutation_amended nowC .CountTotal (.pandasT tblT) rfl⟩

/-- C5 counterexample: the unsupported-table-kind error does NOT
propagate out of `Report.fit`.  `NotImplementedError` is an `Exception`
subclass, so the per-entry `except Exception` clause absorbs it: with
registry `a ↦ pandas table, b ↦ unsupported`, `fit` returns normally and
the second ledger row is an `'E'` row, contradicting the claim that the
error reaches the caller instead of being recorded. -/
theorem C5_unsupported_kind_counterexample :
    (fitReport "pandas" nowC [("a", .CountTotal, []), ("b", .CountTotal, [])]
        [("a", .pandasT tblT), ("b", Table.other)]).map
      (fun rep => rep.result.map (fun row => row.status)) = .ok ['.', 'E'] := by
  with_unfolding_all rfl

/-- C5 amended: evaluating any metric on a table that is neither local
nor distributed fails with the unsupported-table-kind
`NotImplementedError`; during `fit`, however, this error is contained
like every other per-entry failure: whenever the Python local `result`
has already been assigned, the step records an `'E'` ledger row carrying
the stale result and the error message, and `fit` proceeds (it aborts
only when the error strikes before any entry has produced a result, and
then with the undefined-variable error, not the unsupported-kind one). -/
theorem C5_unsupported_kind_amended :
    (∀ (now : Clock) (m : Metric), (evalMetric now m Table.other).1 = .error unsupportedErr) ∧
    (∀ (now : Clock) (st : FitState) (name : String) (m : Metric) (limits : LimitType)
      (r : Result), st.lastResult = some r → List.lookup name st.tables = some Table.other →
      fitStepPandas now st (name, m, limits) = .ok { st with
        tables := updTables st.tables name Table.other,
        rows := st.rows ++ [mkRow name m limits r 'E' (errMsg unsupportedErr)],
        errors := st.errors + 1, total := st.total + 1 }) := by
  constructor
  · intro now m
    rfl
  · intro now st name m limits r hlast hlook
    simp only [fitStepPandas, hlook, hlast]
    rfl

/-- C5 witness: the amended containment applied at a concrete mid-run
state. -/
theorem C5_unsupported_kind_witness :
    c5st.lastResult = some [("total", RVal.num 3)] ∧
    fitStepPandas nowC c5st ("b", .CountTotal, []) = .ok { c5st with
      tables := updTables c5st.tables "b" Table.other,
      rows := c5st.rows ++ [mkRow "b" .CountTotal [] [("total", RVal.num 3)] 'E'
        (errMsg unsupportedErr)],
      errors := c5st.errors + 1, total := c5st.total + 1 } :=
  ⟨rfl, C5_unsupported_kind_amended.2 nowC c5st "b" .CountTotal [] [("total", RVal.num 3)]
    rfl rfl⟩

/-- Characterisation of `df.duplicated(subset)` (default `keep="first"`)
relative to the accumulator of already-seen keys: position `i` is
flagged exactly when its key occurs in the accumulator or at an earlier
position. -/
theorem dupFlags_getD_spec :
    ∀ (ks seen : List (List Cell)) (i : Nat), i < ks.length →
      ((dupFlags seen ks).getD i false = true ↔
        (ks.getD i [] ∈ seen ∨ ∃ j, j < i ∧ ks.getD j [] = ks.getD i []))
  | [], seen, i, h => by simp at h
  | k :: rest, seen, 0, h => by
    simp [dupFlags]
  | k :: rest, seen, i + 1, h => by
    have ih := dupFlags_getD_spec rest (k :: seen) i (by simpa using h)
    simp only [dupFlags, List.getD_cons_succ]
    rw [ih]
    constructor
    · rintro (hmem | ⟨j, hj, heq⟩)
      · rcases List.mem_cons.mp hmem with hk | hseen
        · exact Or.inr ⟨0, Nat.succ_pos i, by simpa using hk.symm⟩
        · exact Or.inl hseen
      · exact Or.inr ⟨j + 1, by omega, by simpa using heq⟩
    · rintro (hseen | ⟨j, hj, heq⟩)
      · exact Or.inl (List.mem_cons_of_mem _ hseen)
      · cases j with
        | zero =>
          have hk : k = rest.getD i [] := by simpa using heq
          exact Or.inl (hk ▸ List.mem_cons_self _ _)
        | succ j2 => exact Or.inr ⟨j2, by omega, by simpa using heq⟩

/-- C6 counterexample: on the scenario table of the spec
`T = [{x:0,y:1},{x:0,y:2},{x:5,y:1}]` with columns `[x]`, the
duplicate-count metric returns `count = 1` (`delta = 1/3`), not the
claimed `count = 2` (`delta = 0.667`): `df.duplicated` keeps the first
occurrence of the key `x=0` unflagged. -/
theorem C6_duplicates_counterexample :
    (evalMetric nowC (.CountDuplicates ["x"]) (.pandasT tblT)).1
      = .ok [("total", .num 3), ("count", .num 1), ("delta", .num (1 / 3 : Rat))] ∧
    (evalMetric nowC (.CountDuplicates ["x"]) (.pandasT tblT)).1
      ≠ .ok [("total", .num 3), ("count", .num 2), ("delta", .num (2 / 3 : Rat))] := by
  have h1 : (evalMetric nowC (.CountDuplicates ["x"]) (.pandasT tblT)).1
      = .ok [("total", .num 3), ("count", .num 1), ("delta", .num (1 / 3 : Rat))] := by
    with_unfolding_all rfl
  refine ⟨h1, ?_⟩
  rw [h1]
  intro h2
  have h3 : (1 : Rat) = 2 := by
    have h4 := h2
    simp only [Except.ok.injEq, List.cons.injEq, Prod.mk.injEq, RVal.num.injEq] at h4
    exact h4.2.1.2
  norm_num at h3

/-- C6 amended: the local strategy flags a row as duplicate exactly when
an earlier row shares its key tuple (so `k = n` minus the number of
distinct keys), while the distributed strategy counts distinct keys of
multiplicity at least two; on the scenario table both strategies return
`{total: 3, count: 1, delta: 1/3}`. -/
theorem C6_duplicates_amended :
    (∀ (ks : List (List Cell)) (i : Nat), i < ks.length →
      ((dupFlags [] ks).getD i false = true ↔
        ∃ j, j < i ∧ ks.getD j [] = ks.getD i [])) ∧
    (evalMetric nowC (.CountDuplicates ["x"]) (.pandasT tblT)).1
      = .ok [("total", .num 3), ("count", .num 1), ("delta", .num (1 / 3 : Rat))] ∧
    (evalMetric nowC (.CountDuplicates ["x"]) (.sparkT tblT)).1
      = .ok [("total", .num 3), ("count", .num 1), ("delta", .num (1 / 3 : Rat))] := by
  refine ⟨?_, by with_unfolding_all rfl, by with_unfolding_all rfl⟩
  intro ks i h
  rw [dupFlags_getD_spec ks [] i h]
  simp

/-- C6 witness: the duplicate characterisation applied at the scenario
key column (`[[0], [0], [5]]`, position 1). -/
theorem C6_duplicates_witness :
    (1 < ksT.length) ∧
    ((dupFlags [] ksT).getD 1 false = true ↔
      ∃ j, j < 1 ∧ ksT.getD j [] = ksT.getD 1 []) :=
  ⟨by decide, C6_duplicates_amended.1 ksT 1 (by decide)⟩

/-- The classification loop only ever returns `'.'` or `'F'` (every
other outcome is an exception). -/
theorem checkLimits_status (res : Result) :
    ∀ (limits : LimitType) (s : Char), checkLimits limits res = .ok s → s = '.' ∨ s = 'F'
  | [], s, h => by
    simp only [checkLimits, Except.ok.injEq] at h
    exact Or.inl h.symm
  | (key, lo, hi) :: rest, s, h => by
    simp only [checkLimits] at h
    cases hg : resGet res key with
    | none =>
      simp only [hg, Except.ok.injEq] at h
      exact Or.inr h.symm
    | some v =>
      cases v with
      | num q =>
        simp only [hg] at h
        split at h
        · exact checkLimits_status res rest s h
        · simp only [Except.ok.injEq] at h
          exact Or.inr h.symm
      | str s2 => simp [hg] at h
      | none =>
        simp only [hg, Except.ok.injEq] at h
        exact Or.inr h.symm

/-- One successful step of the pandas checklist loop appends exactly one
ledger row with a legal status and bumps exactly one counter plus
`total`. -/
theorem fitStep_inv (now : Clock) (st st2 : FitState) (e : CheckType)
    (h : fitStepPandas now st e = .ok st2) :
    st2.passed + st2.failed + st2.errors = st.passed + st.failed + st.errors + 1 ∧
    st2.total = st.total + 1 ∧
    ∃ row, st2.rows = st.rows ++ [row] ∧ statusOK row.status := by
  obtain ⟨name, m, limits⟩ := e
  simp only [fitStepPandas] at h
  cases hl : List.lookup name st.tables with
  | none =>
    simp only [hl] at h
    cases hlr : st.lastResult with
    | none => simp [hlr] at h
    | some r =>
      simp only [hlr, Except.ok.injEq] at h
      subst h
      refine ⟨by simp; try omega, by simp, ⟨_, rfl, Or.inr (Or.inr rfl)⟩⟩
  | some tbl =>
    simp only [hl] at h
    cases he : (evalMetric now m tbl).1 with
    | error err =>
      simp only [he] at h
      cases hlr : st.lastResult with
      | none => simp [hlr] at h
      | some r =>
        simp only [hlr, Except.ok.injEq] at h
        subst h
        refine ⟨by simp; try omega, by simp, ⟨_, rfl, Or.inr (Or.inr rfl)⟩⟩
    | ok result =>
      simp only [he] at h
      cases hc : checkLimits limits result with
      | error err =>
        simp only [hc, Except.ok.injEq] at h
        subst h
        refine ⟨by simp; try omega, by simp, ⟨_, rfl, Or.inr (Or.inr rfl)⟩⟩
      | ok status =>
        simp only [hc, Except.ok.injEq] at h
        subst h
        have hs := checkLimits_status result limits status hc
        by_cases hdot : status = '.'
        · refine ⟨by simp [hdot]; try omega, by simp, ⟨_, rfl, Or.inl hdot⟩⟩
        · refine ⟨by simp [hdot]; try omega, by simp, ⟨_, rfl, ?_⟩⟩
          rcases hs with h1 | h1
          · exact absurd h1 hdot
          · exact Or.inr (Or.inl h1)

/-- Folding the checklist: a successful run appends one legal row per
entry and keeps the counter sum aligned with `total`. -/
theorem runChecklist_inv (now : Clock) :
    ∀ (cl : List CheckType) (st st2 : FitState),
      runChecklistPandas now st cl = .ok st2 →
      st2.passed + st2.failed + st2.errors
          = st.passed + st.failed + st.errors + cl.length ∧
      st2.total = st.total + cl.length ∧
      st2.rows.length = st.rows.length + cl.length ∧
      (∀ row ∈ st2.rows, row ∈ st.rows ∨ statusOK row.status)
  | [], st, st2, h => by
    simp only [runChecklistPandas, Except.ok.injEq] at h
    subst h
    exact ⟨rfl, rfl, rfl, fun row hr => Or.inl hr⟩
  | e :: rest, st, st2, h => by
    simp only [runChecklistPandas] at h
    cases hs : fitStepPandas now st e with
    | error err => simp [hs] at h
    | ok st1 =>
      rw [hs] at h
      obtain ⟨hsum, htot, ⟨row, hrows, hrow⟩⟩ := fitStep_inv now st st1 e hs
      obtain ⟨ihsum, ihtot, ihlen, ihmem⟩ := runChecklist_inv now rest st1 st2 h
      refine ⟨by simp only [List.length_cons]; omega, by simp [List.length_cons]; omega, ?_, ?_⟩
      · rw [ihlen, hrows]
        simp [List.length_append]
        omega
      · intro r hr
        rcases ihmem r hr with hmem | hok
        · rw [hrows] at hmem
          rcases List.mem_append.mp hmem with h1 | h1
          · exact Or.inl h1
          · simp only [List.mem_singleton] at h1
            subst h1
            exact Or.inr hrow
        · exact Or.inr hok

/-- The pyspark engine path computes the same function as the pandas
path (the source duplicates the method body verbatim). -/
theorem fitPyspark_eq_fitPandas (now : Clock) (cl : List CheckType)
    (tables : List (String × Table)) :
    fitPyspark now cl tables = fitPandas now cl tables := by
  unfold fitPandas fitPyspark
  rw [runChecklist_eq]

/-- What a successful `finalizeReport` transfers from the loop state to
the report. -/
theorem finalizeReport_ok (tables : List (String × Table)) (st : FitState) (rep : Report)
    (h : finalizeReport tables st = .ok rep) :
    rep.result = st.rows ∧ rep.passed = st.passed ∧ rep.failed = st.failed ∧
      rep.errors = st.errors ∧ rep.total = st.total := by
  simp only [finalizeReport] at h
  split at h
  · exact absurd h (by simp)
  · simp only [Except.ok.injEq] at h
    subst h
    exact ⟨rfl, rfl, rfl, rfl, rfl⟩

/-- C2: After every successful call to `Report.fit` (on any engine, with
no exception escaping), the produced report satisfies
`passed + failed + errors == total == len(checklist)` and the ledger has
one row per checklist entry, the status of each row being one of
`'.'`, `'F'`, `'E'`. -/
theorem C2_report_invariants (engine : String) (now : Clock) (cl : List CheckType)
    (tables : List (String × Table)) (rep : Report)
    (h : fitReport engine now cl tables = .ok rep) :
    rep.passed + rep.failed + rep.errors = rep.total ∧
    rep.total = cl.length ∧
    rep.result.length = cl.length ∧
    ∀ row ∈ rep.result, statusOK row.status := by
  have hpandas : ∀ (rep2 : Report), fitPandas now cl tables = .ok rep2 →
      rep2.passed + rep2.failed + rep2.errors = rep2.total ∧
      rep2.total = cl.length ∧
      rep2.result.length = cl.length ∧
      ∀ row ∈ rep2.result, statusOK row.status := by
    intro rep2 h2
    unfold fitPandas at h2
    cases hr : runChecklistPandas now ⟨tables, [], 0, 0, 0, 0, Option.none⟩ cl with
    | error err => rw [hr] at h2; exact absurd h2 (by simp)
    | ok st =>
      rw [hr] at h2
      obtain ⟨hsum, htot, hlen, hmem⟩ := runChecklist_inv now cl _ st hr
      obtain ⟨hres, hp, hf, he, ht⟩ := finalizeReport_ok tables st rep2 h2
      simp only [List.length_nil] at hsum htot hlen
      refine ⟨by omega, by omega, by rw [hres]; omega, ?_⟩
      intro row hrow
      rw [hres] at hrow
      rcases hmem row hrow with hmem2 | hok
      · exact absurd hmem2 (List.not_mem_nil row)
      · exact hok
  unfold fitReport at h
  split at h
  · exact hpandas rep h
  · split at h
    · rw [fitPyspark_eq_fitPandas] at h
      exact hpandas rep h
    · exact absurd h (by simp)

/-- C2 witness: the invariants instantiated on a concrete successful
one-entry fit. -/
theorem C2_report_invariants_witness :
    c2rep.passed + c2rep.failed + c2rep.errors = c2rep.total ∧
    c2rep.total = c2cl.length ∧
    c2rep.result.length = c2cl.length ∧
    ∀ row ∈ c2rep.result, statusOK row.status :=
  C2_report_invariants "pandas" nowC c2cl c2reg c2rep (by with_unfolding_all rfl)

/-- Models `checkLimits` returns `'.'` exactly when every limit key resolves to
a numeric value inside its inclusive range. -/
theorem checkLimits_dot_iff (res : Result) :
    ∀ limits : LimitType, checkLimits limits res = .ok '.' ↔ allWithin limits res
  | [] => by
    simp [checkLimits, allWithin]
  | (key, lo, hi) :: rest => by
    simp only [checkLimits]
    cases hg : resGet res key with
    | none =>
      simp only [hg]
      constructor
      · intro h
        exact absurd h (by simp)
      · intro h
        obtain ⟨q, hq, _⟩ := h (key, lo, hi) (List.mem_cons_self _ _)
        simp only at hq
        rw [hg] at hq
        cases hq
    | some v =>
      cases v with
      | num q =>
        simp only [hg]
        split
        case isTrue hin =>
          rw [checkLimits_dot_iff res rest]
          constructor
          · intro h e he
            rcases List.mem_cons.mp he with rfl | hmem
            · exact ⟨q, hg, hin⟩
            · exact h e hmem
          · intro h e he
            exact h e (List.mem_cons_of_mem _ he)
        case isFalse hout =>
          constructor
          · intro h
            exact absurd h (by simp)
          · intro h
            obtain ⟨q2, hq2, hin2⟩ := h (key, lo, hi) (List.mem_cons_self _ _)
            simp only at hq2
            rw [hg] at hq2
            injection hq2 with hq3
            injection hq3 with hq4
            subst hq4
            exact absurd hin2 hout
      | str s2 =>
        simp only [hg]
        constructor
        · intro h
          exact absurd h (by simp)
        · intro h
          obtain ⟨q, hq, _⟩ := h (key, lo, hi) (List.mem_cons_self _ _)
          simp only at hq
          rw [hg] at hq
          injection hq with hq2
          cases hq2
      | none =>
        simp only [hg]
        constructor
        · intro h
          exact absurd h (by simp)
        · intro h
          obtain ⟨q, hq, _⟩ := h (key, lo, hi) (List.mem_cons_self _ _)
          simp only at hq
          rw [hg] at hq
          injection hq with hq2
          cases hq2

/-- The classification loop short-circuits: a failing head entry forces
`'F'` regardless of the remaining limit entries. -/
theorem checkLimits_shortcircuit (res : Result) (key : String) (lo hi : Rat)
    (rest : LimitType) (h : entryFails (key, lo, hi) res) :
    checkLimits ((key, lo, hi) :: rest) res = .ok 'F' := by
  simp only [entryFails] at h
  simp only [checkLimits]
  rcases h with h1 | h1 | ⟨q, hq, hout⟩
  · rw [h1]
  · rw [h1]
  · rw [hq]
    simp [hout]

/-- A successful step (lookup succeeded, metric succeeded, limit check
returned a status without raising) records exactly that status in the
appended ledger row and updates the matching counter. -/
theorem fitStep_success_status (now : Clock) (st : FitState) (name : String)
    (m : Metric) (limits : LimitType) (tbl : Table) (result : Result) (s : Char)
    (hlook : List.lookup name st.tables = some tbl)
    (heval : (evalMetric now m tbl).1 = .ok result)
    (hcheck : checkLimits limits result = .ok s) :
    fitStepPandas now st (name, m, limits) = .ok { st with
      tables := updTables st.tables name (evalMetric now m tbl).2,
      rows := st.rows ++ [mkRow name m limits result s ""],
      passed := if s = '.' then st.passed + 1 else st.passed,
      failed := if s = '.' then st.failed else st.failed + 1,
      total := st.total + 1,
      lastResult := some result } := by
  simp only [fitStepPandas, hlook, heval, hcheck]

/-- C3 counterexample: a checklist entry whose metric evaluation
succeeds can still be recorded as `'E'` rather than `'.'`/`'F'`: with
limits `{"today": (0, 1)}` on the date-lag metric, the result value is a
date string and the chained comparison `lower <= value <= upper` raises
`TypeError`, which the `except` branch records as an `'E'` row — the
claim predicts `'F'` (key present but not a number in range). -/
theorem C3_status_classification_counterexample :
    (evalMetric nowC (.CountLag "d" "%Y-%m-%d") (.pandasT tblLag)).1
      = .ok [("today", .str "2024-01-10"), ("last_day", .str "2024-01-02"),
             ("lag", .num 8)] ∧
    (fitReport "pandas" nowC [("t", .CountLag "d" "%Y-%m-%d", [("today", (0, 1))])]
        [("t", .pandasT tblLag)]).map
      (fun rep => rep.result.map (fun row => row.status)) = .ok ['E'] :=
  ⟨by with_unfolding_all rfl, by with_unfolding_all rfl⟩

/-- C3 amended: for a checklist entry whose metric evaluation succeeds
with result `R` and limits `L`, and whose limit comparisons do not
themselves raise (every checked value is numeric, `None`, or absent),
the recorded status is `'.'` iff every key of `L` maps in `R` to a
numeric value inside its inclusive `[lower, upper]` range, and `'F'`
otherwise, short-circuiting at the first failing key; a non-numeric
(string) checked value instead raises inside the limit loop and the
entry is recorded as `'E'` (see the counterexample). -/
theorem C3_status_classification_amended :
    (∀ (limits : LimitType) (res : Result),
      checkLimits limits res = .ok '.' ↔ allWithin limits res) ∧
    (∀ (limits : LimitType) (res : Result) (s : Char),
      checkLimits limits res = .ok s → s = '.' ∨ s = 'F') ∧
    (∀ (res : Result) (key : String) (lo hi : Rat) (rest : LimitType),
      entryFails (key, lo, hi) res → checkLimits ((key, lo, hi) :: rest) res = .ok 'F') ∧
    (∀ (now : Clock) (st : FitState) (name : String) (m : Metric) (limits : LimitType)
      (tbl : Table) (result : Result) (s : Char),
      List.lookup name st.tables = some tbl →
      (evalMetric now m tbl).1 = .ok result →
      checkLimits limits result = .ok s →
      fitStepPandas now st (name, m, limits) = .ok { st with
        tables := updTables st.tables name (evalMetric now m tbl).2,
        rows := st.rows ++ [mkRow name m limits result s ""],
        passed := if s = '.' then st.passed + 1 else st.passed,
        failed := if s = '.' then st.failed else st.failed + 1,
        total := st.total + 1,
        lastResult := some result }) :=
  ⟨fun limits res => checkLimits_dot_iff res limits,
   fun limits res s h => checkLimits_status res limits s h,
   fun res key lo hi rest h => checkLimits_shortcircuit res key lo hi rest h,
   fun now st name m limits tbl result s h1 h2 h3 =>
     fitStep_success_status now st name m limits tbl result s h1 h2 h3⟩

/-- C3 witness: the wiring conjunct applied to a concrete passing entry
(zero-count on the scenario table, `delta` limited to `[1/2, 1]`). -/
theorem C3_status_classification_witness :
    fitStepPandas nowC ⟨c2reg, [], 0, 0, 0, 0, Option.none⟩
        ("t", .CountZeros "x", [("delta", (1 / 2 : Rat), (1 : Rat))])
      = .ok { (⟨c2reg, [], 0, 0, 0, 0, Option.none⟩ : FitState) with
          tables := updTables c2reg "t" (evalMetric nowC (.CountZeros "x") (.pandasT tblT)).2,
          rows := [] ++ [mkRow "t" (.CountZeros "x") [("delta", (1 / 2 : Rat), (1 : Rat))]
            [("total", RVal.num 3), ("count", RVal.num 2), ("delta", RVal.num (2 / 3 : Rat))]
            '.' ""],
          passed := if '.' = '.' then 0 + 1 else 0,
          failed := if '.' = '.' then 0 else 0 + 1,
          total := 0 + 1,
          lastResult := some [("total", RVal.num 3), ("count", RVal.num 2),
            ("delta", RVal.num (2 / 3 : Rat))] } :=
  C3_status_classification_amended.2.2.2 nowC ⟨c2reg, [], 0, 0, 0, 0, Option.none⟩
    "t" (.CountZeros "x") [("delta", (1 / 2 : Rat), (1 : Rat))] (.pandasT tblT)
    [("total", RVal.num 3), ("count", RVal.num 2), ("delta", RVal.num (2 / 3 : Rat))] '.'
    (by with_unfolding_all rfl) (by with_unfolding_all rfl) (by with_unfolding_all rfl)

/-! ## Cross-backend parity lemmas -/

/-- Pointwise-equal predicates count the same. -/
theorem countP_pointwise {α : Type} (p q : α → Bool) :
    ∀ l : List α, (∀ a ∈ l, p a = q a) → l.countP p = l.countP q
  | [], _ => rfl
  | a :: l, h => by
    have ha := h a (List.mem_cons_self _ _)
    have ih := countP_pointwise p q l (fun b hb => h b (List.mem_cons_of_mem _ hb))
    simp [List.countP_cons, ha, ih]

/-- Counting `p` over a list equals counting `q` over the `nn`-filtered
list whenever `p` decomposes pointwise as `nn && q` (the pandas
null-is-false semantics versus the Spark pre-filter). -/
theorem countP_eq_countP_filter {α : Type} (p q nn : α → Bool) :
    ∀ l : List α, (∀ a ∈ l, p a = (nn a && q a)) →
      l.countP p = (l.filter nn).countP q
  | [], _ => rfl
  | a :: l, h => by
    have ha := h a (List.mem_cons_self _ _)
    have ih := countP_eq_countP_filter p q nn l (fun b hb => h b (List.mem_cons_of_mem _ hb))
    by_cases hnn : nn a
    · by_cases hq : q a
      · simp [List.countP_cons, List.filter_cons, hnn, hq, ha, ih]
      · simp [List.countP_cons, List.filter_cons, hnn, hq, ha, ih]
    · simp [List.countP_cons, List.filter_cons, hnn, ha, ih]

/-- A list that is not `isEmpty` has non-zero length. -/
theorem length_ne_zero_of_not_isEmpty {α : Type} (l : List α) (h : l.isEmpty = false) :
    l.length ≠ 0 := by
  cases l <;> simp_all

/-- On a non-empty table the numpy-scalar division path and the Python
int division path build the same result. -/
theorem mkCountsNp_eq_mkCounts (n k : Nat) (h : n ≠ 0) :
    mkCountsNp n k = mkCounts n k := by
  unfold mkCountsNp mkCounts
  simp [h]

/-- A numeric-or-null column is in particular present in every row. -/
theorem colNumeric_present (rows : List Row) (c : String)
    (h : colNumeric rows c = true) : colPresent rows c = true := by
  rw [colPresent, List.all_eq_true]
  intro r hr
  have hrc := List.all_eq_true.mp h r hr
  cases hl : List.lookup c r with
  | none => rw [hl] at hrc; cases hrc
  | some v => simp [hl]

/-- Every cell of a numeric-or-null column passes the pandas
comparability check. -/
theorem colNumeric_cell (rows : List Row) (c : String)
    (h : colNumeric rows c = true) :
    ∀ r ∈ rows, cellNumOrNull (getCellD r c) = true := by
  intro r hr
  have hrc := List.all_eq_true.mp h r hr
  cases hl : List.lookup c r with
  | none => rw [hl] at hrc; cases hrc
  | some v =>
    rw [hl] at hrc
    cases v <;> simp_all [getCellD, hl, cellNumOrNull]

/-- Parity of `CountValue` on a non-empty table: both strategies count
the same equality test (the tables differ only in the `n = 0` division
path). -/
theorem value_parity (c : String) (v : SVal) (rows : List Row)
    (hne : rows.isEmpty = false) :
    pandasCountValue c v rows = sparkCountValue c v rows := by
  unfold pandasCountValue sparkCountValue
  have hn := length_ne_zero_of_not_isEmpty rows hne
  by_cases hp : colPresent rows c
  · simp [hp, mkCountsNp_eq_mkCounts _ _ hn]
  · simp [hp]

/-- Parity of `CountBelowValue` on a non-empty table with a
numeric-or-null column: the pandas comparability guard passes and both
strategies count the same strict comparison. -/
theorem belowValue_parity (c : String) (v : Rat) (rows : List Row)
    (hne : rows.isEmpty = false) (h : colNumeric rows c = true) :
    pandasCountBelowValue c v rows = sparkCountBelowValue c v rows := by
  unfold pandasCountBelowValue sparkCountBelowValue
  have hall : rows.all (fun r => cellNumOrNull (getCellD r c)) = true :=
    List.all_eq_true.mpr (colNumeric_cell rows c h)
  have hn := length_ne_zero_of_not_isEmpty rows hne
  by_cases hp : colPresent rows c
  · simp [hp, hall, mkCountsNp_eq_mkCounts _ _ hn]
  · simp [hp]

/-- Rowwise decomposition of the pandas column comparison into the Spark
null pre-filter followed by the same comparison. -/
theorem belowColumn_row (b : Bool) (cx cy : Cell)
    (hx : cellNumOrNull cx = true) (hy : cellNumOrNull cy = true) :
    (if b then cellPairLt cx cy else cellPairLe cx cy)
      = ((!cx.isNull && !cy.isNull) &&
         (if b then cellPairLt cx cy else cellPairLe cx cy)) := by
  cases cx <;> cases cy <;>
    simp_all [cellPairLt, cellPairLe, cellNumOrNull, Cell.isNull]

/-- Parity of `CountBelowColumn` on numeric-or-null columns: pandas
counts the comparison (false on nulls) over all rows, Spark counts it
over the null-filtered rows; `n` is the unfiltered length on both
sides. -/
theorem belowColumn_parity (x y : String) (b : Bool) (rows : List Row)
    (hne : rows.isEmpty = false)
    (hx : colNumeric rows x = true) (hy : colNumeric rows y = true) :
    pandasCountBelowColumn x y b rows = sparkCountBelowColumn x y b rows := by
  unfold pandasCountBelowColumn sparkCountBelowColumn
  have hn := length_ne_zero_of_not_isEmpty rows hne
  have hpx := colNumeric_present rows x hx
  have hpy := colNumeric_present rows y hy
  have hall : rows.all
      (fun r => cellNumOrNull (getCellD r x) && cellNumOrNull (getCellD r y)) = true := by
    rw [List.all_eq_true]
    intro r hr
    simp [colNumeric_cell rows x hx r hr, colNumeric_cell rows y hy r hr]
  simp only [hpx, hpy, hall, Bool.not_true, Bool.false_eq_true, if_false, if_true]
  have hk : rows.countP (fun r =>
        if b then cellPairLt (getCellD r x) (getCellD r y)
        else cellPairLe (getCellD r x) (getCellD r y))
      = (rows.filter (fun r => !(getCellD r x).isNull && !(getCellD r y).isNull)).countP
          (fun r => if b then cellPairLt (getCellD r x) (getCellD r y)
            else cellPairLe (getCellD r x) (getCellD r y)) := by
    apply countP_eq_countP_filter
    intro r hr
    exact belowColumn_row b (getCellD r x) (getCellD r y)
      (colNumeric_cell rows x hx r hr) (colNumeric_cell rows y hy r hr)
  rw [mkCountsNp_eq_mkCounts _ _ hn, hk]

/-- Rowwise decomposition for the ratio metric: with numeric-or-null
cells and a non-zero denominator, the pandas IEEE comparison agrees with
the Spark filtered comparison. -/
theorem ratio_row (b : Bool) (cx cy cz : Cell)
    (hx : cellNumOrNull cx = true) (hy : cellNumOrNull cy = true)
    (hz : cellNumOrNull cz = true) (h0 : (cy == Cell.num 0) = false) :
    (if b then eratLtCell (pandasDivCell cx cy) cz
     else eratLeCell (pandasDivCell cx cy) cz)
      = ((!cx.isNull && !cy.isNull && !cz.isNull) && sparkRatioPred b cx cy cz) := by
  cases b <;> cases cx <;> cases cy <;> cases cz <;>
    simp_all [pandasDivCell, eratLtCell, eratLeCell, cellNumOrNull, Cell.isNull,
      sparkRatioPred, beq_iff_eq]

/-- Parity of `CountRatioBelow` on numeric-or-null columns with no zero
denominators. -/
theorem ratioBelow_parity (x y z : String) (b : Bool) (rows : List Row)
    (hne : rows.isEmpty = false)
    (hx : colNumeric rows x = true) (hy : colNumeric rows y = true)
    (hz : colNumeric rows z = true)
    (h0 : rows.all (fun r => !(getCellD r y == Cell.num 0)) = true) :
    pandasCountRatioBelow x y z b rows = sparkCountRatioBelow x y z b rows := by
  unfold pandasCountRatioBelow sparkCountRatioBelow
  have hn := length_ne_zero_of_not_isEmpty rows hne
  have hpx := colNumeric_present rows x hx
  have hpy := colNumeric_present rows y hy
  have hpz := colNumeric_present rows z hz
  have hall : rows.all (fun r => cellNumOrNull (getCellD r x)
      && cellNumOrNull (getCellD r y) && cellNumOrNull (getCellD r z)) = true := by
    rw [List.all_eq_true]
    intro r hr
    simp [colNumeric_cell rows x hx r hr, colNumeric_cell rows y hy r hr,
      colNumeric_cell rows z hz r hr]
  simp only [hpx, hpy, hpz, hall, Bool.not_true, Bool.false_eq_true, if_false, if_true]
  have hk : rows.countP (fun r =>
        if b then eratLtCell (pandasDivCell (getCellD r x) (getCellD r y)) (getCellD r z)
        else eratLeCell (pandasDivCell (getCellD r x) (getCellD r y)) (getCellD r z))
      = (rows.filter (fun r => !(getCellD r x).isNull && !(getCellD r y).isNull
            && !(getCellD r z).isNull)).countP
          (fun r => sparkRatioPred b (getCellD r x) (getCellD r y) (getCellD r z)) := by
    apply countP_eq_countP_filter
    intro r hr
    have h0r : (getCellD r y == Cell.num 0) = false := by
      have := List.all_eq_true.mp h0 r hr
      simpa using this
    exact ratio_row b (getCellD r x) (getCellD r y) (getCellD r z)
      (colNumeric_cell rows x hx r hr) (colNumeric_cell rows y hy r hr)
      (colNumeric_cell rows z hz r hr) h0r
  rw [mkCountsNp_eq_mkCounts _ _ hn, hk]

/-- The `|`-fold of `when` clauses evaluates to SQL `TRUE` exactly when
the accumulator is `TRUE` or some listed column is null (the fold stays
in `{TRUE, NULL}`). -/
theorem foldOr_spec (r : Row) :
    ∀ (rest : List String) (acc : Option Bool),
      acc = some true ∨ acc = Option.none →
      ((rest.foldl (fun a c => orWhen a (whenNull r c)) acc) == some true)
        = (acc == some true || rest.any (fun c => (getCellD r c).isNull))
  | [], acc, hacc => by simp
  | c :: rest, acc, hacc => by
    have hstep : orWhen acc (whenNull r c) = some true ∨
        orWhen acc (whenNull r c) = Option.none := by
      rcases hacc with h | h <;> subst h <;> unfold orWhen whenNull <;>
        by_cases hn : (getCellD r c).isNull <;> simp [hn]
    have ih := foldOr_spec r rest (orWhen acc (whenNull r c)) hstep
    have key : (orWhen acc (whenNull r c) == some true)
        = (acc == some true || (getCellD r c).isNull) := by
      rcases hacc with h | h <;> subst h <;> unfold orWhen whenNull <;>
        by_cases hn : (getCellD r c).isNull <;> simp [hn]
    simp only [List.foldl_cons, ih, List.any_cons, key, Bool.or_assoc]

/-- The `&`-fold of `when` clauses evaluates to SQL `TRUE` exactly when
the accumulator is `TRUE` and every listed column is null. -/
theorem foldAnd_spec (r : Row) :
    ∀ (rest : List String) (acc : Option Bool),
      acc = some true ∨ acc = Option.none →
      ((rest.foldl (fun a c => andWhen a (whenNull r c)) acc) == some true)
        = (acc == some true && rest.all (fun c => (getCellD r c).isNull))
  | [], acc, hacc => by simp
  | c :: rest, acc, hacc => by
    have hstep : andWhen acc (whenNull r c) = some true ∨
        andWhen acc (whenNull r c) = Option.none := by
      rcases hacc with h | h <;> subst h <;> unfold andWhen whenNull <;>
        by_cases hn : (getCellD r c).isNull <;> simp [hn]
    have ih := foldAnd_spec r rest (andWhen acc (whenNull r c)) hstep
    have key : (andWhen acc (whenNull r c) == some true)
        = (acc == some true && (getCellD r c).isNull) := by
      rcases hacc with h | h <;> subst h <;> unfold andWhen whenNull <;>
        by_cases hn : (getCellD r c).isNull <;> simp [hn]
    simp only [List.foldl_cons, ih, List.all_cons, key, Bool.and_assoc]

/-- Parity of `CountNull`: for a non-empty column list present in the
table, the pandas rowwise any/all test agrees with the Spark
`when`-chain condition; an invalid aggregation mode raises the same
`UnboundLocalError` on both backends. -/
theorem countNull_parity (cols : List String) (agg : String) (rows : List Row)
    (hrne : rows.isEmpty = false)
    (hne : cols.isEmpty = false) (hp : cols.all (colPresent rows) = true) :
    pandasCountNull cols agg rows = sparkCountNull cols agg rows := by
  have hn := length_ne_zero_of_not_isEmpty rows hrne
  cases cols with
  | nil => simp at hne
  | cons c0 rest =>
    unfold pandasCountNull sparkCountNull
    by_cases ha : agg = "any"
    · simp only [ha, if_true, hp, if_pos]
      rw [mkCountsNp_eq_mkCounts _ _ hn]
      apply congrArg (mkCounts rows.length)
      apply countP_pointwise
      intro r _
      have h1 := foldOr_spec r rest (whenNull r c0) (by
        unfold whenNull
        by_cases hn : (getCellD r c0).isNull <;> simp [hn])
      have h2 : (whenNull r c0 == some true) = (getCellD r c0).isNull := by
        unfold whenNull
        by_cases hn : (getCellD r c0).isNull <;> simp [hn]
      simp only [sparkNullCondAny, h1, h2, List.any_cons]
    · by_cases ha2 : agg = "all"
      · simp only [ha, ha2, if_true, if_false, hp, if_pos]
        simp only [if_neg (show ("all" : String) ≠ "any" by decide)]
        rw [mkCountsNp_eq_mkCounts _ _ hn]
        apply congrArg (mkCounts rows.length)
        apply countP_pointwise
        intro r _
        have h1 := foldAnd_spec r rest (whenNull r c0) (by
          unfold whenNull
          by_cases hn : (getCellD r c0).isNull <;> simp [hn])
        have h2 : (whenNull r c0 == some true) = (getCellD r c0).isNull := by
          unfold whenNull
          by_cases hn : (getCellD r c0).isNull <;> simp [hn]
        simp only [sparkNullCondAll, h1, h2, List.all_cons]
      · simp [ha, ha2]

/-- C1 counterexample: cross-backend parity fails for the
duplicate-count metric.  On a table whose key column holds `0` three
times, the local strategy (`df.duplicated`) counts the two rows after
the first occurrence, while the distributed strategy
(`groupBy ... count > 1`) counts the single repeated key: `2/3` versus
`1/3` for identical contents. -/
theorem C1_cross_backend_parity_counterexample :
    (evalMetric nowC (.CountDuplicates ["x"]) (.pandasT t3)).1
      = .ok [("total", .num 3), ("count", .num 2), ("delta", .num (2 / 3 : Rat))] ∧
    (evalMetric nowC (.CountDuplicates ["x"]) (.sparkT t3)).1
      = .ok [("total", .num 3), ("count", .num 1), ("delta", .num (1 / 3 : Rat))] ∧
    (evalMetric nowC (.CountDuplicates ["x"]) (.pandasT t3)).1
      ≠ (evalMetric nowC (.CountDuplicates ["x"]) (.sparkT t3)).1 := by
  have h1 : (evalMetric nowC (.CountDuplicates ["x"]) (.pandasT t3)).1
      = .ok [("total", .num 3), ("count", .num 2), ("delta", .num (2 / 3 : Rat))] := by
    with_unfolding_all rfl
  have h2 : (evalMetric nowC (.CountDuplicates ["x"]) (.sparkT t3)).1
      = .ok [("total", .num 3), ("count", .num 1), ("delta", .num (1 / 3 : Rat))] := by
    with_unfolding_all rfl
  refine ⟨h1, h2, ?_⟩
  rw [h1, h2]
  intro h
  simp only [Except.ok.injEq, List.cons.injEq, Prod.mk.injEq, RVal.num.injEq] at h
  have h3 : (2 : Rat) = 1 := h.2.1.2
  norm_num at h3

/-- C1 amended: for a fixed dataset held once as a local and once as a
distributed table, the two strategies return identical results for
total-count, zero-count, null-count (non-empty column list),
exact-value-count with a numeric literal, below-threshold-count,
column-below-column and ratio-below-threshold (no zero denominators),
whenever the referenced columns are numeric-or-null and — for the five
metrics whose local `k` is a `Series.sum()` numpy scalar — the table is
non-empty (at `n = 0` the local strategy returns a `nan` delta while
the distributed one raises `ZeroDivisionError`); the null-row exclusion
applied by the two strategies coincides (nulls excluded from `k`, never
from `n`).  Parity does not extend to duplicate-count (the
counterexample), nor to the quantile and date-lag metrics, whose two
strategies use genuinely different algorithms. -/
theorem C1_cross_backend_parity_amended (now : Clock) (m : Metric) (rows : List Row)
    (h : refColsOK m rows = true) :
    (evalMetric now m (Table.pandasT rows)).1
      = (evalMetric now m (Table.sparkT rows)).1 := by
  cases m with
  | CountTotal => rfl
  | CountZeros c => rfl
  | CountNull cols agg =>
    show pandasCountNull cols agg rows = sparkCountNull cols agg rows
    simp only [refColsOK, Bool.and_eq_true, Bool.not_eq_true'] at h
    refine countNull_parity cols agg rows h.1 h.2.1 ?_
    rw [List.all_eq_true]
    intro c hc
    exact colNumeric_present rows c (List.all_eq_true.mp h.2.2 c hc)
  | CountDuplicates cols => simp [refColsOK] at h
  | CountValue c v =>
    cases v with
    | num q =>
      show pandasCountValue c (.num q) rows = sparkCountValue c (.num q) rows
      simp only [refColsOK, Bool.and_eq_true, Bool.not_eq_true'] at h
      exact value_parity c (.num q) rows h.1
    | str s => simp [refColsOK] at h
  | CountBelowValue c v b =>
    show pandasCountBelowValue c v rows = sparkCountBelowValue c v rows
    simp only [refColsOK, Bool.and_eq_true, Bool.not_eq_true'] at h
    exact belowValue_parity c v rows h.1 h.2
  | CountBelowColumn x y b =>
    show pandasCountBelowColumn x y b rows = sparkCountBelowColumn x y b rows
    simp only [refColsOK, Bool.and_eq_true, Bool.not_eq_true'] at h
    exact belowColumn_parity x y b rows h.1 h.2.1 h.2.2
  | CountRatioBelow x y z b =>
    show pandasCountRatioBelow x y z b rows = sparkCountRatioBelow x y z b rows
    simp only [refColsOK, Bool.and_eq_true, Bool.not_eq_true'] at h
    exact ratioBelow_parity x y z b rows h.1 h.2.1.1.1 h.2.1.1.2 h.2.1.2 h.2.2
  | CountCB c conf => simp [refColsOK] at h
  | CountLag c fmt => simp [refColsOK] at h

/-- C1 witness: parity instantiated on the column-below-column metric
over a two-row table containing a null. -/
theorem C1_cross_backend_parity_witness :
    refColsOK (.CountBelowColumn "x" "y" false) c1rows = true ∧
    (evalMetric nowC (.CountBelowColumn "x" "y" false) (.pandasT c1rows)).1
      = (evalMetric nowC (.CountBelowColumn "x" "y" false) (.sparkT c1rows)).1 :=
  ⟨by with_unfolding_all rfl,
   C1_cross_backend_parity_amended nowC (.CountBelowColumn "x" "y" false) c1rows
     (by with_unfolding_all rfl)⟩
